import Mathlib

/-!
Verification model of the SiameseMolNet repository.

The model is a shallow embedding of the two source files:

  CrossSiameseNet/datasets/cf_datasets.py
  CrossSiameseNet/train_new.py

Modelling conventions, stated once here:

- A DeepChem dataset is a record of three parallel arrays.  Molecular
  fingerprints (torch float tensors of shape (n, size)) become
  `List (List Rat)`; the label tensor has shape (n, 1) (one task column), so
  each row is a one-element vector and we keep the scalar of that row, making
  `y : List Rat`; the SMILES identifier array becomes `List String`.
- Python exceptions are modelled with `Except String`: a raised exception is
  `.error msg`.  Language-level failures visible in the source are modelled
  faithfully: reading an attribute that no construction branch assigned is an
  AttributeError, subscripting a Python float is a TypeError, `len0 / len1`
  with `len1 = 0` is a ZeroDivisionError, and `random.choice` /
  `numpy RandomState.choice` on an empty sequence raises.
- Randomness is modelled by explicitly threading a generator state
  (`RandState`).  `numpy.random.RandomState(seed)` is a deterministic
  pseudo-random source once the seed is an integer; with seed `None` it is
  seeded from OS entropy, which the model represents by an ambient `entropy`
  argument.  No claim depends on the concrete drawn values, only on the
  threading and on determinism given a seed, so a linear congruential step
  stands in for the Mersenne Twister.
- `torch.cat` over a list of torch tensors is concatenation of the underlying
  row lists; it raises when the argument list is empty, which the model keeps.
  `MolDataset.__init__` converts `X` and `y` to torch tensors with
  `torch.from_numpy` but assigns `self.smiles = dc_dataset.ids`, a numpy array
  of SMILES strings that is never converted (torch has no string tensors), so
  `torch.cat` applied to slices of `self.smiles` type-checks its arguments and
  raises TypeError; the model keeps that distinction (`torchCat` for the
  tensor arrays, `torchCatNumpy` for the identifier array).
  Fancy indexing `X[indices]` becomes a `map` with `getD`; all indices fed to
  it are positions of `y`, in range whenever the store satisfies the
  len(X) = len(y) = len(ids) invariant.
- Python `int(a / b)` on non-negative ints is floor division, i.e. `Nat`
  division.
-/

/-- The store produced by a DeepChem loader, as consumed by `MolDataset`:
parallel arrays of fingerprints `X`, single-task labels `y` (the one label
column of the (n, 1) tensor) and SMILES identifiers (`ids`, which stays a
numpy string array in the wrapper: only `X` and `y` are converted to torch
tensors). -/
structure DcDataset where
  X : List (List Rat)
  y : List Rat
  smiles : List String
deriving DecidableEq

/-- Positions of the rows of `y` whose label equals `v`; the embedding of
`(self.y == v).nonzero()[:,0].tolist()` for the (n, 1) label tensor. -/
def eqIndices (y : List Rat) (v : Rat) : List Nat :=
  (List.range y.length).filter (fun i => decide (y.getD i 0 = v))

/-- State of a pseudo-random source (the process-wide `random` module state,
or one isolated `numpy.random.RandomState`). -/
structure RandState where
  state : Nat
deriving DecidableEq

/-- One pseudo-random draw.  A linear congruential step stands in for the
actual generator: the claims depend only on deterministic threading of the
state, never on the concrete values drawn. -/
def nextRand (g : RandState) : Nat × RandState :=
  let s2 := (g.state * 1103515245 + 12345) % 2147483648
  (s2, ⟨s2⟩)

/-- `random.choice(l)` and `numpy RandomState.choice(l)`: select one element
of `l` using the generator.  Both APIs raise on an empty sequence. -/
def randChoice (l : List Nat) (g : RandState) : Except String (Nat × RandState) :=
  match l with
  | [] => .error "choice from an empty sequence"
  | a :: rest =>
    let r := nextRand g
    .ok ((a :: rest).getD (r.1 % (a :: rest).length) 0, r.2)

/-- The generator state of `numpy.random.RandomState(seed)`.  An integer seed
determines the state; seed `None` draws the state from OS entropy, modelled by
the ambient `entropy` value. -/
def initialRandomState (seed : Option Int) (entropy : Nat) : RandState :=
  match seed with
  | some s => ⟨(s % 4294967296).toNat⟩
  | none => ⟨entropy⟩

/-- `torch.cat(ts)` for a list of torch tensors sharing their trailing shape:
concatenation of the row lists; torch raises on an empty argument list. -/
def torchCat {α : Type} (ts : List (List α)) : Except String (List α) :=
  match ts with
  | [] => .error "RuntimeError: cat expects a non-empty list of tensors"
  | _ :: _ => .ok ts.flatten

/-- `torch.cat(ts)` applied to a list of numpy arrays instead of torch
tensors: an empty argument list is rejected first, and any element of a
non-empty list fails the tensor type check.  This is the call the
oversampling branch makes on slices of `self.smiles`, the numpy identifier
array that `MolDataset.__init__` never converts to a tensor. -/
def torchCatNumpy (ts : List (List String)) : Except String (List String) :=
  match ts with
  | [] => .error "RuntimeError: cat expects a non-empty list of tensors"
  | _ :: _ =>
    .error "TypeError: expected Tensor as element 0 in argument 0, but got numpy.ndarray"

/-- Indexing `t[i]` into a tensor dimension of length `l.length`:
out-of-range indices raise IndexError. -/
def tensorGet {α : Type} (l : List α) (i : Nat) : Except String α :=
  match l.get? i with
  | some v => .ok v
  | none => .error "IndexError: index out of range"

/-- The value `self.fixed_triplets` built by `__get_fixed_dataset`: the Python
list `[anchor_mf, positive_mf, negative_mf, anchor_label]`.  The first three
entries are tensors (row lists); the fourth is the loop variable
`anchor_label`, a single Python float that escaped the generation loop — a
scalar, not a per-row array. -/
structure FixedTriplets where
  anchors : List (List Rat)
  positives : List (List Rat)
  negatives : List (List Rat)
  anchorLabel : Rat
deriving DecidableEq

/-- The state of a `MolDatasetTriplet` object after a successful
`__init__`.  `n_molecules` is set by the parent `MolDataset.__init__` from the
original identifier array and is never updated afterwards.  `fixed_triplets`
is `none` in the branches that do not assign the attribute. -/
structure MolDatasetTriplet where
  X : List (List Rat)
  y : List Rat
  smiles : List String
  n_molecules : Nat
  train : Bool
  oversample : Bool
  use_fixed_triplets : Bool
  seed_fixed_triplets : Option Int
  indices_0 : List Nat
  indices_1 : List Nat
  fixed_triplets : Option FixedTriplets
deriving DecidableEq

/-- Python `repr` of a bool, as interpolated by an f-string. -/
def pyBoolRepr : Bool → String
  | true => "True"
  | false => "False"

/-- The generation loop of `__get_fixed_dataset`: for every record of the
store in order, draw one positive index from the partition matching the label
and one negative index from the opposite partition (two sequential draws per
record from the isolated generator).  Returns the index lists and the final
generator state. -/
def drawTriplets (indices_0 indices_1 : List Nat) :
    List Rat → RandState → Except String (List Nat × List Nat × RandState)
  | [], g => .ok ([], [], g)
  | anchor_label :: rest, g =>
    if anchor_label = 1 then
      match randChoice indices_1 g with
      | .error msg => .error msg
      | .ok (p, g1) =>
        match randChoice indices_0 g1 with
        | .error msg => .error msg
        | .ok (n, g2) =>
          match drawTriplets indices_0 indices_1 rest g2 with
          | .error msg => .error msg
          | .ok (ps, ns, g3) => .ok (p :: ps, n :: ns, g3)
    else
      match randChoice indices_0 g with
      | .error msg => .error msg
      | .ok (p, g1) =>
        match randChoice indices_1 g1 with
        | .error msg => .error msg
        | .ok (n, g2) =>
          match drawTriplets indices_0 indices_1 rest g2 with
          | .error msg => .error msg
          | .ok (ps, ns, g3) => .ok (p :: ps, n :: ns, g3)

/-- `MolDatasetTriplet.__get_fixed_dataset`: build the fixed-triplet cache
from the store and the partitions with an isolated seeded generator.  The
returned `anchor_label` entry is the last value of the loop variable; on an
empty store the loop never runs and the name is unbound (NameError). -/
def MolDatasetTriplet.get_fixed_dataset (X : List (List Rat)) (y : List Rat)
    (indices_0 indices_1 : List Nat) (g : RandState) : Except String FixedTriplets :=
  match drawTriplets indices_0 indices_1 y g with
  | .error msg => .error msg
  | .ok (positive_indices, negative_indices, _) =>
    match y.getLast? with
    | none => .error "NameError: name anchor_label is not defined"
    | some anchor_label =>
      .ok { anchors := X,
            positives := positive_indices.map (fun i => X.getD i []),
            negatives := negative_indices.map (fun i => X.getD i []),
            anchorLabel := anchor_label }

/-- `MolDatasetTriplet.__init__`.  The four branches of the source, in order:
oversampling (replicate the minority rows, rebuild the store, recompute the
partitions), the plain branch, the invalid `oversample` with
`use_fixed_triplets` combination (raises), and the fixed-triplet branch
(eagerly builds the cache).  The truthiness of the `use_fixed_triplets`
argument is what the conditions test, so a caller that passes a non-zero
integer there lands in the truthy branches.  In the oversampling branch the
two tensor concatenations precede the concatenation of the numpy identifier
slices, which `torch.cat` rejects, so the store rebuild in the final match
arm is unreachable (lines 75-80 of the source never execute). -/
def MolDatasetTriplet.init (dc_dataset : DcDataset) (train : Bool) (oversample : Bool)
    (use_fixed_triplets : Bool) (seed_fixed_triplets : Option Int) (entropy : Nat) :
    Except String MolDatasetTriplet :=
  let X := dc_dataset.X
  let y := dc_dataset.y
  let smiles := dc_dataset.smiles
  let n_molecules := smiles.length
  let indices_0 := eqIndices y 0
  let indices_1 := eqIndices y 1
  if oversample && !use_fixed_triplets then
    if indices_1.length = 0 then
      .error "ZeroDivisionError: division by zero"
    else
      let oversampling_multiplicator := indices_0.length / indices_1.length
      let X_0 := indices_0.map (fun i => X.getD i [])
      let X_1 := indices_1.map (fun i => X.getD i [])
      let y_0 := indices_0.map (fun i => y.getD i 0)
      let y_1 := indices_1.map (fun i => y.getD i 0)
      let smiles_0 := indices_0.map (fun i => smiles.getD i "")
      let smiles_1 := indices_1.map (fun i => smiles.getD i "")
      match torchCat (List.replicate oversampling_multiplicator X_1),
          torchCat (List.replicate oversampling_multiplicator y_1),
          torchCatNumpy (List.replicate oversampling_multiplicator smiles_1) with
      | .ok oversampled_X_1, .ok oversampled_y_1, .ok oversampled_smiles_1 =>
        let newX := X_0 ++ oversampled_X_1
        let newY := y_0 ++ oversampled_y_1
        let newSmiles := smiles_0 ++ oversampled_smiles_1
        .ok { X := newX, y := newY, smiles := newSmiles, n_molecules := n_molecules,
              train := train, oversample := oversample,
              use_fixed_triplets := use_fixed_triplets,
              seed_fixed_triplets := seed_fixed_triplets,
              indices_0 := eqIndices newY 0, indices_1 := eqIndices newY 1,
              fixed_triplets := none }
      | .error msg, _, _ => .error msg
      | _, .error msg, _ => .error msg
      | _, _, .error msg => .error msg
  else if !oversample && !use_fixed_triplets then
    .ok { X := X, y := y, smiles := smiles, n_molecules := n_molecules, train := train,
          oversample := oversample, use_fixed_triplets := use_fixed_triplets,
          seed_fixed_triplets := seed_fixed_triplets, indices_0 := indices_0,
          indices_1 := indices_1, fixed_triplets := none }
  else if oversample && use_fixed_triplets then
    .error ("MolDatasetTriplet initiated with wrong parameters: oversample(value: "
      ++ pyBoolRepr oversample ++ ") and use_fixed_triplets(value: "
      ++ pyBoolRepr use_fixed_triplets ++ ")")
  else
    -- the remaining case is exactly the final `elif self.use_fixed_triplets` branch
    match MolDatasetTriplet.get_fixed_dataset X y indices_0 indices_1
        (initialRandomState seed_fixed_triplets entropy) with
    | .ok ft =>
      .ok { X := X, y := y, smiles := smiles, n_molecules := n_molecules, train := train,
            oversample := oversample, use_fixed_triplets := use_fixed_triplets,
            seed_fixed_triplets := seed_fixed_triplets, indices_0 := indices_0,
            indices_1 := indices_1, fixed_triplets := some ft }
    | .error msg => .error msg

/-- `MolDatasetTriplet.__getitem__`.  The on-the-fly branch is guarded by
`not self.use_fixed_triplets and self.train == False`; every other
configuration takes the cache-lookup branch, which first reads the
`fixed_triplets` attribute (unbound in the non-fixed branches), then
subscripts its entries at `id0`; the fourth entry is the scalar
`anchor_label`, and subscripting a Python float raises TypeError. -/
def MolDatasetTriplet.getitem (self : MolDatasetTriplet) (id0 : Nat) (g : RandState) :
    Except String ((List Rat × List Rat × List Rat × Rat) × RandState) :=
  if !self.use_fixed_triplets && !self.train then
    match tensorGet self.X id0 with
    | .error msg => .error msg
    | .ok anchor_mf =>
      match tensorGet self.y id0 with
      | .error msg => .error msg
      | .ok anchor_label =>
        if anchor_label = 1 then
          match randChoice self.indices_1 g with
          | .error msg => .error msg
          | .ok (positive_index, g1) =>
            match randChoice self.indices_0 g1 with
            | .error msg => .error msg
            | .ok (negative_index, g2) =>
              match tensorGet self.X positive_index, tensorGet self.X negative_index with
              | .ok positive_mf, .ok negative_mf =>
                .ok ((anchor_mf, positive_mf, negative_mf, anchor_label), g2)
              | .error msg, _ => .error msg
              | _, .error msg => .error msg
        else
          match randChoice self.indices_0 g with
          | .error msg => .error msg
          | .ok (positive_index, g1) =>
            match randChoice self.indices_1 g1 with
            | .error msg => .error msg
            | .ok (negative_index, g2) =>
              match tensorGet self.X positive_index, tensorGet self.X negative_index with
              | .ok positive_mf, .ok negative_mf =>
                .ok ((anchor_mf, positive_mf, negative_mf, anchor_label), g2)
              | .error msg, _ => .error msg
              | _, .error msg => .error msg
  else
    match self.fixed_triplets with
    | none => .error "AttributeError: MolDatasetTriplet object has no attribute fixed_triplets"
    | some ft =>
      match tensorGet ft.anchors id0, tensorGet ft.positives id0, tensorGet ft.negatives id0 with
      | .ok _, .ok _, .ok _ =>
        .error "TypeError: float object is not subscriptable"
      | .error msg, _, _ => .error msg
      | _, .error msg, _ => .error msg
      | _, _, .error msg => .error msg

/-- `MolDatasetTriplet.get_pos_weights`: the tensor `[1, len0 / len1]` with
Python true division, which raises when the `indices_1` partition is empty. -/
def MolDatasetTriplet.get_pos_weights (self : MolDatasetTriplet) :
    Except String (Rat × Rat) :=
  if self.indices_1.length = 0 then .error "ZeroDivisionError: division by zero"
  else .ok (1, (self.indices_0.length : Rat) / (self.indices_1.length : Rat))

/-- `MolDatasetTriplet.refresh_fixed_triplets`: store the new seed, then
rebuild the cache from the unchanged store and partitions with a fresh
`RandomState(seed)`. -/
def MolDatasetTriplet.refresh_fixed_triplets (self : MolDatasetTriplet)
    (seed_fixed_triplets : Int) : Except String MolDatasetTriplet :=
  let self1 := { self with seed_fixed_triplets := some seed_fixed_triplets }
  match MolDatasetTriplet.get_fixed_dataset self1.X self1.y self1.indices_0 self1.indices_1
      (initialRandomState self1.seed_fixed_triplets 0) with
  | .error msg => .error msg
  | .ok ft => .ok { self1 with fixed_triplets := some ft }

/-- The splitter-present triplet branch of `get_dataset` (cf_datasets.py lines
195-201), given the three split stores the loader produced.  The evaluation
wrappers are built by `MolDatasetTriplet(datasets[k], False, True, 123)`:
the positional arguments bind `oversample = True` and
`use_fixed_triplets = 123` (truthy), while `seed_fixed_triplets` keeps its
default `None`. -/
def get_dataset_triplet_split (trainSplit validSplit testSplit : DcDataset)
    (oversample use_fixed_train_triplets : Bool) (seed_fixed_train_triplets : Option Int)
    (entropy : Nat) :
    Except String (MolDatasetTriplet × MolDatasetTriplet × MolDatasetTriplet) :=
  match MolDatasetTriplet.init trainSplit true oversample use_fixed_train_triplets
      seed_fixed_train_triplets entropy with
  | .error msg => .error msg
  | .ok train_dataset =>
    match MolDatasetTriplet.init validSplit false true true none entropy with
    | .error msg => .error msg
    | .ok valid_dataset =>
      match MolDatasetTriplet.init testSplit false true true none entropy with
      | .error msg => .error msg
      | .ok test_dataset => .ok (train_dataset, valid_dataset, test_dataset)

/-- The dataset-refresh step of one epoch of `train_triplet` (train_new.py
lines 28-34), restricted to its effect on the training dataset: when
`epoch > 0` and `use_fixed_training_triplets`, call
`refresh_fixed_triplets(dataset.seed_fixed_triplets + epoch)` on the current
dataset state — the first operand is the seed currently stored on the
dataset, which `refresh_fixed_triplets` itself overwrites. -/
def trainEpochRefresh (use_fixed_training_triplets : Bool) (d : MolDatasetTriplet)
    (epoch : Nat) : Except String MolDatasetTriplet :=
  if 0 < epoch && use_fixed_training_triplets then
    match d.seed_fixed_triplets with
    | some s => MolDatasetTriplet.refresh_fixed_triplets d (s + (epoch : Int))
    | none => .error "TypeError: unsupported operand types for + NoneType and int"
  else .ok d

/-- The training dataset state after the refresh steps of epochs
`0, 1, ..., n-1` of `train_triplet`. -/
def trainDatasetAfterEpochs (use_fixed_training_triplets : Bool)
    (d : MolDatasetTriplet) : Nat → Except String MolDatasetTriplet
  | 0 => .ok d
  | n + 1 =>
    match trainDatasetAfterEpochs use_fixed_training_triplets d n with
    | .error msg => .error msg
    | .ok dPrev => trainEpochRefresh use_fixed_training_triplets dPrev n

/-- A two-record store with one label-0 and one label-1 molecule. -/
def demoStore : DcDataset :=
  { X := [[0], [1]], y := [0, 1], smiles := ["c0", "c1"] }

/-- A two-record store whose labels are both 1 (empty label-0 partition). -/
def allOnesStore : DcDataset :=
  { X := [[5], [6]], y := [1, 1], smiles := ["m0", "m1"] }

/-- A four-record store with three label-0 records and one label-1 record. -/
def store4 : DcDataset :=
  { X := [[1], [2], [3], [4]], y := [0, 0, 0, 1], smiles := ["a", "b", "c", "d"] }

/-- A store with 80 label-0 records and 20 label-1 records. -/
def store80 : DcDataset :=
  { X := List.replicate 100 [0], y := List.replicate 80 0 ++ List.replicate 20 1,
    smiles := List.replicate 100 "s80" }

/-- The dataset `MolDatasetTriplet(demoStore, train=True)` (plain branch). -/
def trainDemo : MolDatasetTriplet :=
  { X := demoStore.X, y := demoStore.y, smiles := demoStore.smiles, n_molecules := 2,
    train := true, oversample := false, use_fixed_triplets := false,
    seed_fixed_triplets := none, indices_0 := [0], indices_1 := [1],
    fixed_triplets := none }

/-- The dataset `MolDatasetTriplet(demoStore, train=False)` (plain branch). -/
def plainDemo : MolDatasetTriplet :=
  { X := demoStore.X, y := demoStore.y, smiles := demoStore.smiles, n_molecules := 2,
    train := false, oversample := false, use_fixed_triplets := false,
    seed_fixed_triplets := none, indices_0 := [0], indices_1 := [1],
    fixed_triplets := none }

/-- The fixed-triplet cache over `demoStore`: both partitions are singletons,
so every draw lands on the only element regardless of the generator values. -/
def demoCache : FixedTriplets :=
  { anchors := [[0], [1]], positives := [[0], [1]], negatives := [[1], [0]],
    anchorLabel := 1 }

/-- The dataset `MolDatasetTriplet(demoStore, train=False,
use_fixed_triplets=True, seed_fixed_triplets=123)`. -/
def fixedDemo : MolDatasetTriplet :=
  { X := demoStore.X, y := demoStore.y, smiles := demoStore.smiles, n_molecules := 2,
    train := false, oversample := false, use_fixed_triplets := true,
    seed_fixed_triplets := some 123, indices_0 := [0], indices_1 := [1],
    fixed_triplets := some demoCache }

/-- The dataset `MolDatasetTriplet(demoStore, train=True,
use_fixed_triplets=True, seed_fixed_triplets=0)`, the fixed-mode training
dataset used to trace the per-epoch seed evolution. -/
def c4Demo : MolDatasetTriplet :=
  { X := demoStore.X, y := demoStore.y, smiles := demoStore.smiles, n_molecules := 2,
    train := true, oversample := false, use_fixed_triplets := true,
    seed_fixed_triplets := some 0, indices_0 := [0], indices_1 := [1],
    fixed_triplets := some demoCache }

/-- The dataset `MolDatasetTriplet(allOnesStore, train=False)` (plain branch):
its `indices_0` partition is empty. -/
def allOnesPlain : MolDatasetTriplet :=
  { X := allOnesStore.X, y := allOnesStore.y, smiles := allOnesStore.smiles,
    n_molecules := 2, train := false, oversample := false, use_fixed_triplets := false,
    seed_fixed_triplets := none, indices_0 := [], indices_1 := [0, 1],
    fixed_triplets := none }

/-- The dataset `MolDatasetTriplet(store80, train=False)` (plain branch). -/
def store80Plain : MolDatasetTriplet :=
  { X := store80.X, y := store80.y, smiles := store80.smiles, n_molecules := 100,
    train := false, oversample := false, use_fixed_triplets := false,
    seed_fixed_triplets := none, indices_0 := eqIndices store80.y 0,
    indices_1 := eqIndices store80.y 1, fixed_triplets := none }

/-- The exception message raised by the invalid-parameter branch of
`MolDatasetTriplet.__init__`. -/
def wrongParamsMsg (o f : Bool) : String :=
  "MolDatasetTriplet initiated with wrong parameters: oversample(value: "
    ++ pyBoolRepr o ++ ") and use_fixed_triplets(value: " ++ pyBoolRepr f ++ ")"

theorem mem_eqIndices {y : List Rat} {v : Rat} {i : Nat} :
    i ∈ eqIndices y v ↔ i < y.length ∧ y.getD i 0 = v := by
  simp [eqIndices, List.mem_filter, List.mem_range]

theorem tensorGet_ok {α : Type} {l : List α} {i : Nat} (h : i < l.length) :
    ∃ v, tensorGet l i = .ok v := by
  unfold tensorGet
  cases hg : l.get? i with
  | some v => exact ⟨v, rfl⟩
  | none =>
    rw [List.get?_eq_none] at hg
    omega

theorem torchCat_replicate {α : Type} {m : Nat} (h : m ≠ 0) (l : List α) :
    torchCat (List.replicate m l) = .ok (List.replicate m l).flatten := by
  cases m with
  | zero => exact absurd rfl h
  | succ k => rfl

theorem randChoice_ok {l : List Nat} (h : l ≠ []) (g : RandState) :
    ∃ v g2, randChoice l g = .ok (v, g2) := by
  cases l with
  | nil => exact absurd rfl h
  | cons a rest => exact ⟨_, _, rfl⟩

theorem drawTriplets_ok {indices_0 indices_1 : List Nat}
    (h0 : indices_0 ≠ []) (h1 : indices_1 ≠ []) :
    ∀ (y : List Rat) (g : RandState), ∃ ps ns g2,
      drawTriplets indices_0 indices_1 y g = .ok (ps, ns, g2) := by
  intro y
  induction y with
  | nil => exact fun g => ⟨[], [], g, rfl⟩
  | cons a rest ih =>
    intro g
    unfold drawTriplets
    by_cases ha : a = 1
    · rw [if_pos ha]
      obtain ⟨p, g1, hp⟩ := randChoice_ok h1 g
      obtain ⟨n, g2, hn⟩ := randChoice_ok h0 g1
      obtain ⟨ps, ns, g3, hd⟩ := ih g2
      simp only [hp, hn, hd]
      exact ⟨_, _, _, rfl⟩
    · rw [if_neg ha]
      obtain ⟨p, g1, hp⟩ := randChoice_ok h0 g
      obtain ⟨n, g2, hn⟩ := randChoice_ok h1 g1
      obtain ⟨ps, ns, g3, hd⟩ := ih g2
      simp only [hp, hn, hd]
      exact ⟨_, _, _, rfl⟩

theorem drawTriplets_length {indices_0 indices_1 : List Nat} :
    ∀ (y : List Rat) (g : RandState) (ps ns : List Nat) (g2 : RandState),
      drawTriplets indices_0 indices_1 y g = .ok (ps, ns, g2) →
      ps.length = y.length ∧ ns.length = y.length := by
  intro y
  induction y with
  | nil =>
    intro g ps ns g2 h
    unfold drawTriplets at h
    injection h with h
    rw [Prod.mk.injEq, Prod.mk.injEq] at h
    obtain ⟨h1, h2, h3⟩ := h
    subst h1; subst h2
    exact ⟨rfl, rfl⟩
  | cons a rest ih =>
    intro g ps ns g2 h
    unfold drawTriplets at h
    split at h <;> (repeat' split at h) <;> (try cases h) <;>
      (rename_i heq; obtain ⟨hp, hn⟩ := ih _ _ _ _ heq; simp [hp, hn])

theorem init_plain_eq (ds : DcDataset) (t : Bool) (s : Option Int) (e : Nat) :
    MolDatasetTriplet.init ds t false false s e
      = .ok { X := ds.X, y := ds.y, smiles := ds.smiles, n_molecules := ds.smiles.length,
              train := t, oversample := false, use_fixed_triplets := false,
              seed_fixed_triplets := s, indices_0 := eqIndices ds.y 0,
              indices_1 := eqIndices ds.y 1, fixed_triplets := none } := rfl

theorem init_invalid_eq (ds : DcDataset) (t : Bool) (s : Option Int) (e : Nat) :
    MolDatasetTriplet.init ds t true true s e = .error (wrongParamsMsg true true) := rfl

theorem init_fixed_eq (ds : DcDataset) (t : Bool) (s : Option Int) (e : Nat) :
    MolDatasetTriplet.init ds t false true s e
      = match MolDatasetTriplet.get_fixed_dataset ds.X ds.y (eqIndices ds.y 0)
            (eqIndices ds.y 1) (initialRandomState s e) with
        | .ok ft => .ok { X := ds.X, y := ds.y, smiles := ds.smiles,
                          n_molecules := ds.smiles.length, train := t, oversample := false,
                          use_fixed_triplets := true, seed_fixed_triplets := s,
                          indices_0 := eqIndices ds.y 0, indices_1 := eqIndices ds.y 1,
                          fixed_triplets := some ft }
        | .error msg => .error msg := rfl

theorem init_oversample_eq (ds : DcDataset) (t : Bool) (s : Option Int) (e : Nat) :
    MolDatasetTriplet.init ds t true false s e
      = (if (eqIndices ds.y 1).length = 0 then .error "ZeroDivisionError: division by zero"
         else
          match torchCat (List.replicate ((eqIndices ds.y 0).length / (eqIndices ds.y 1).length)
                  ((eqIndices ds.y 1).map (fun i => ds.X.getD i []))),
              torchCat (List.replicate ((eqIndices ds.y 0).length / (eqIndices ds.y 1).length)
                  ((eqIndices ds.y 1).map (fun i => ds.y.getD i 0))),
              torchCatNumpy (List.replicate ((eqIndices ds.y 0).length / (eqIndices ds.y 1).length)
                  ((eqIndices ds.y 1).map (fun i => ds.smiles.getD i ""))) with
          | .ok oX1, .ok oy1, .ok os1 =>
            .ok { X := (eqIndices ds.y 0).map (fun i => ds.X.getD i []) ++ oX1,
                  y := (eqIndices ds.y 0).map (fun i => ds.y.getD i 0) ++ oy1,
                  smiles := (eqIndices ds.y 0).map (fun i => ds.smiles.getD i "") ++ os1,
                  n_molecules := ds.smiles.length,
                  train := t, oversample := true, use_fixed_triplets := false,
                  seed_fixed_triplets := s,
                  indices_0 := eqIndices ((eqIndices ds.y 0).map (fun i => ds.y.getD i 0)
                    ++ oy1) 0,
                  indices_1 := eqIndices ((eqIndices ds.y 0).map (fun i => ds.y.getD i 0)
                    ++ oy1) 1,
                  fixed_triplets := none }
          | .error msg, _, _ => .error msg
          | _, .error msg, _ => .error msg
          | _, _, .error msg => .error msg) := rfl

theorem init_fixed_inv {ds : DcDataset} {t : Bool} {s : Option Int} {e : Nat}
    {d : MolDatasetTriplet} (h : MolDatasetTriplet.init ds t false true s e = .ok d) :
    ∃ ft, MolDatasetTriplet.get_fixed_dataset ds.X ds.y (eqIndices ds.y 0)
          (eqIndices ds.y 1) (initialRandomState s e) = .ok ft ∧
      d = { X := ds.X, y := ds.y, smiles := ds.smiles, n_molecules := ds.smiles.length,
            train := t, oversample := false, use_fixed_triplets := true,
            seed_fixed_triplets := s, indices_0 := eqIndices ds.y 0,
            indices_1 := eqIndices ds.y 1, fixed_triplets := some ft } := by
  rw [init_fixed_eq] at h
  cases hg : MolDatasetTriplet.get_fixed_dataset ds.X ds.y (eqIndices ds.y 0)
      (eqIndices ds.y 1) (initialRandomState s e) with
  | ok ft =>
    rw [hg] at h
    injection h with h
    exact ⟨ft, rfl, h.symm⟩
  | error m =>
    rw [hg] at h
    cases h

theorem init_oversample_error (ds : DcDataset) (t : Bool) (s : Option Int) (e : Nat) :
    ∃ msg, MolDatasetTriplet.init ds t true false s e = .error msg := by
  rw [init_oversample_eq]
  by_cases h1 : (eqIndices ds.y 1).length = 0
  · rw [if_pos h1]
    exact ⟨_, rfl⟩
  · rw [if_neg h1]
    by_cases hm : (eqIndices ds.y 0).length / (eqIndices ds.y 1).length = 0
    · rw [hm]
      simp only [List.replicate_zero]
      exact ⟨_, rfl⟩
    · obtain ⟨k, hk⟩ : ∃ k, (eqIndices ds.y 0).length / (eqIndices ds.y 1).length = k + 1 :=
        ⟨(eqIndices ds.y 0).length / (eqIndices ds.y 1).length - 1,
          (Nat.sub_add_cancel (Nat.one_le_iff_ne_zero.2 hm)).symm⟩
      rw [hk]
      exact ⟨_, rfl⟩

theorem init_oversample_never {ds : DcDataset} {t : Bool} {s : Option Int} {e : Nat}
    {d : MolDatasetTriplet} (h : MolDatasetTriplet.init ds t true false s e = .ok d) :
    False := by
  obtain ⟨msg, hmsg⟩ := init_oversample_error ds t s e
  rw [hmsg] at h
  cases h

theorem init_nonfixed_inv {ds : DcDataset} {t o : Bool} {s : Option Int} {e : Nat}
    {d : MolDatasetTriplet} (h : MolDatasetTriplet.init ds t o false s e = .ok d) :
    d.train = t ∧ d.use_fixed_triplets = false ∧ d.fixed_triplets = none := by
  cases o with
  | false =>
    rw [init_plain_eq] at h
    injection h with h
    subst h
    exact ⟨rfl, rfl, rfl⟩
  | true => exact (init_oversample_never h).elim

theorem drawTriplets_cons_inv {indices_0 indices_1 : List Nat} {a : Rat} {rest : List Rat}
    {g : RandState} {r : List Nat × List Nat × RandState}
    (h : drawTriplets indices_0 indices_1 (a :: rest) g = .ok r) :
    indices_0 ≠ [] ∧ indices_1 ≠ [] := by
  unfold drawTriplets at h
  constructor
  · intro h0
    subst h0
    by_cases ha : a = 1
    · rw [if_pos ha] at h
      cases hc : randChoice indices_1 g with
      | error m => rw [hc] at h; cases h
      | ok v =>
        obtain ⟨p, g1⟩ := v
        rw [hc] at h
        simp [randChoice] at h
    · rw [if_neg ha] at h
      simp [randChoice] at h
  · intro h1
    subst h1
    by_cases ha : a = 1
    · rw [if_pos ha] at h
      simp [randChoice] at h
    · rw [if_neg ha] at h
      cases hc : randChoice indices_0 g with
      | error m => rw [hc] at h; cases h
      | ok v =>
        obtain ⟨p, g1⟩ := v
        rw [hc] at h
        simp [randChoice] at h

theorem get_fixed_dataset_ok {X : List (List Rat)} {y : List Rat}
    {indices_0 indices_1 : List Nat} (h0 : indices_0 ≠ []) (h1 : indices_1 ≠ [])
    (hy : y ≠ []) (g : RandState) :
    ∃ ft, MolDatasetTriplet.get_fixed_dataset X y indices_0 indices_1 g = .ok ft := by
  obtain ⟨ps, ns, g2, hd⟩ := drawTriplets_ok h0 h1 y g
  unfold MolDatasetTriplet.get_fixed_dataset
  rw [hd]
  cases hl : y.getLast? with
  | some v => exact ⟨_, rfl⟩
  | none =>
    rw [List.getLast?_eq_none_iff] at hl
    exact absurd hl hy

theorem get_fixed_dataset_inv {X : List (List Rat)} {y : List Rat}
    {indices_0 indices_1 : List Nat} {g : RandState} {ft : FixedTriplets}
    (h : MolDatasetTriplet.get_fixed_dataset X y indices_0 indices_1 g = .ok ft) :
    ft.anchors = X ∧ ft.positives.length = y.length ∧ ft.negatives.length = y.length ∧
      y ≠ [] ∧ indices_0 ≠ [] ∧ indices_1 ≠ [] := by
  unfold MolDatasetTriplet.get_fixed_dataset at h
  cases hd : drawTriplets indices_0 indices_1 y g with
  | error m => rw [hd] at h; cases h
  | ok r =>
    obtain ⟨ps, ns, g3⟩ := r
    rw [hd] at h
    cases hl : y.getLast? with
    | none => rw [hl] at h; cases h
    | some v =>
      rw [hl] at h
      injection h with h
      subst h
      obtain ⟨hp, hn⟩ := drawTriplets_length y g ps ns g3 hd
      have hy : y ≠ [] := by
        intro hye
        subst hye
        simp at hl
      obtain ⟨a, rest, hyc⟩ : ∃ a rest, y = a :: rest := by
        cases y with
        | nil => exact absurd rfl hy
        | cons a rest => exact ⟨a, rest, rfl⟩
      subst hyc
      obtain ⟨hi0, hi1⟩ := drawTriplets_cons_inv hd
      exact ⟨rfl, by simp [hp], by simp [hn], hy, hi0, hi1⟩

theorem refresh_eq (d : MolDatasetTriplet) (s : Int) :
    MolDatasetTriplet.refresh_fixed_triplets d s
      = match MolDatasetTriplet.get_fixed_dataset d.X d.y d.indices_0 d.indices_1
            (initialRandomState (some s) 0) with
        | .error msg => .error msg
        | .ok ft =>
          .ok { d with seed_fixed_triplets := some s, fixed_triplets := some ft } := rfl

theorem refresh_ok {d : MolDatasetTriplet} (h0 : d.indices_0 ≠ []) (h1 : d.indices_1 ≠ [])
    (hy : d.y ≠ []) (s : Int) :
    ∃ ft, MolDatasetTriplet.refresh_fixed_triplets d s
      = .ok { d with seed_fixed_triplets := some s, fixed_triplets := some ft } := by
  obtain ⟨ft, hft⟩ := get_fixed_dataset_ok h0 h1 hy (initialRandomState (some s) 0)
  rw [refresh_eq, hft]
  exact ⟨ft, rfl⟩

/-- C1: the claim says that with a splitter and triplet mode the validation
and test datasets are successfully constructed in fixed-triplet mode with
seed 123 and oversample forced true.  In the source the positional arguments
of `MolDatasetTriplet(datasets[k], False, True, 123)` bind `oversample = True`
and `use_fixed_triplets = 123` (truthy) while the seed stays `None`, a
combination `__init__` rejects, so the splitter-present triplet branch of
`get_dataset` raises for every store and every caller-side flag instead of
returning the claimed datasets. -/
theorem c1_get_dataset_triplet_split_raises (trainSplit validSplit testSplit : DcDataset)
    (oversample use_fixed_train_triplets : Bool) (seed : Option Int) (entropy : Nat) :
    ∃ msg, get_dataset_triplet_split trainSplit validSplit testSplit oversample
        use_fixed_train_triplets seed entropy = .error msg := by
  unfold get_dataset_triplet_split
  cases h : MolDatasetTriplet.init trainSplit true oversample use_fixed_train_triplets
      seed entropy with
  | error msg => exact ⟨msg, rfl⟩
  | ok d =>
    refine ⟨wrongParamsMsg true true, ?_⟩
    rw [init_invalid_eq]

set_option maxRecDepth 16384 in
/-- C5: constructing a `MolDatasetTriplet` with both `oversample = true` and
`use_fixed_triplets = true` raises, for every store, training flag, seed and
entropy; no dataset value is produced (so no store mutation and no cache
exists), and the message names both offending flags. -/
theorem c5_invalid_config_raises (ds : DcDataset) (train : Bool) (seed : Option Int)
    (entropy : Nat) :
    MolDatasetTriplet.init ds train true true seed entropy
        = .error (wrongParamsMsg true true)
      ∧ "oversample".data <:+: (wrongParamsMsg true true).data
      ∧ "use_fixed_triplets".data <:+: (wrongParamsMsg true true).data :=
  ⟨init_invalid_eq ds train seed entropy, by decide, by decide⟩

/-- C6: fixed-triplet cache generation is a deterministic function of the
store and the seed: (a) two datasets built in fixed mode from the same store
with the same integer seed carry identical caches (hence identical positive
and negative sequences), whatever the training flags and ambient entropy of
the two constructions; (b) calling `refresh_fixed_triplets` twice in a row
with the same seed on an unchanged store is the same as calling it once. -/
theorem c6_fixed_cache_deterministic :
    (∀ (ds : DcDataset) (t1 t2 : Bool) (s : Int) (e1 e2 : Nat),
      (MolDatasetTriplet.init ds t1 false true (some s) e1).map
          (fun d => d.fixed_triplets)
        = (MolDatasetTriplet.init ds t2 false true (some s) e2).map
          (fun d => d.fixed_triplets)) ∧
    (∀ (d : MolDatasetTriplet) (s : Int),
      (MolDatasetTriplet.refresh_fixed_triplets d s).bind
          (fun d2 => MolDatasetTriplet.refresh_fixed_triplets d2 s)
        = MolDatasetTriplet.refresh_fixed_triplets d s) := by
  constructor
  · intro ds t1 t2 s e1 e2
    rw [init_fixed_eq, init_fixed_eq]
    rw [show initialRandomState (some s) e1 = initialRandomState (some s) e2 from rfl]
    cases MolDatasetTriplet.get_fixed_dataset ds.X ds.y (eqIndices ds.y 0)
        (eqIndices ds.y 1) (initialRandomState (some s) e2) with
    | ok ft => rfl
    | error m => rfl
  · intro d s
    rw [refresh_eq]
    cases hg : MolDatasetTriplet.get_fixed_dataset d.X d.y d.indices_0 d.indices_1
        (initialRandomState (some s) 0) with
    | error m => rfl
    | ok ft =>
      show MolDatasetTriplet.refresh_fixed_triplets
          { d with seed_fixed_triplets := some s, fixed_triplets := some ft } s
        = .ok { d with seed_fixed_triplets := some s, fixed_triplets := some ft }
      rw [refresh_eq]
      dsimp only
      rw [hg]

/-- C2: the claim says a training-mode, non-fixed triplet dataset samples
positives and negatives on the fly like the evaluation branch and does not
fail.  The guard of the on-the-fly branch is
`not use_fixed_triplets and train == False`, so a training dataset falls
into the cache-lookup branch instead, and since no construction branch with
`use_fixed_triplets = false` ever assigns `fixed_triplets`, every access
raises AttributeError. -/
theorem c2_training_nonfixed_getitem_raises (ds : DcDataset) (o : Bool) (s : Option Int)
    (e : Nat) (d : MolDatasetTriplet)
    (h : MolDatasetTriplet.init ds true o false s e = .ok d) (id0 : Nat) (g : RandState) :
    MolDatasetTriplet.getitem d id0 g
      = .error "AttributeError: MolDatasetTriplet object has no attribute fixed_triplets" := by
  obtain ⟨ht, hf, hft⟩ := init_nonfixed_inv h
  unfold MolDatasetTriplet.getitem
  rw [ht, hf, hft]
  rfl

/-- Witness for C2 at a concrete input: the plain training dataset over
`demoStore`, accessed at index 0. -/
theorem c2_training_nonfixed_getitem_raises_witness :
    MolDatasetTriplet.getitem trainDemo 0 ⟨0⟩
      = .error "AttributeError: MolDatasetTriplet object has no attribute fixed_triplets" :=
  c2_training_nonfixed_getitem_raises demoStore false none 0 trainDemo rfl 0 ⟨0⟩

/-- C3: the claim says fixed-mode access returns row `i` of the cache with the
scalar `anchor_label` of the last generated record.  In the source the access
is `self.fixed_triplets[3][id0]`, and entry 3 of the cache is that scalar
(a Python float), so after the three tensor rows are fetched the subscript on
the float raises TypeError for every valid index of every fixed-mode dataset
over a well-formed store. -/
theorem c3_fixed_getitem_raises (ds : DcDataset) (t : Bool) (s : Option Int) (e : Nat)
    (d : MolDatasetTriplet) (h : MolDatasetTriplet.init ds t false true s e = .ok d)
    (hXy : ds.X.length = ds.y.length) (id0 : Nat) (hi : id0 < ds.y.length) (g : RandState) :
    MolDatasetTriplet.getitem d id0 g
      = .error "TypeError: float object is not subscriptable" := by
  obtain ⟨ft, hg, hd⟩ := init_fixed_inv h
  obtain ⟨ha, hp, hn, _, _, _⟩ := get_fixed_dataset_inv hg
  subst hd
  unfold MolDatasetTriplet.getitem
  dsimp only
  obtain ⟨va, hva⟩ := tensorGet_ok (l := ft.anchors) (i := id0) (by rw [ha, hXy]; exact hi)
  obtain ⟨vp, hvp⟩ := tensorGet_ok (l := ft.positives) (i := id0) (by rw [hp]; exact hi)
  obtain ⟨vn, hvn⟩ := tensorGet_ok (l := ft.negatives) (i := id0) (by rw [hn]; exact hi)
  rw [hva, hvp, hvn]
  rfl

/-- Witness for C3 at a concrete input: the fixed-mode dataset over
`demoStore` with seed 123, accessed at index 0. -/
theorem c3_fixed_getitem_raises_witness :
    MolDatasetTriplet.getitem fixedDemo 0 ⟨0⟩
      = .error "TypeError: float object is not subscriptable" :=
  c3_fixed_getitem_raises demoStore false (some 123) 0 fixedDemo rfl rfl 0 (by decide) ⟨0⟩

theorem getD_mem_of_lt {α : Type} {l : List α} {i : Nat} (h : i < l.length) (dflt : α) :
    l.getD i dflt ∈ l := by
  rw [List.getD_eq_getElem l dflt h]
  exact List.getElem_mem h

theorem binary_partition {y : List Rat} (hbin : ∀ l ∈ y, l = 0 ∨ l = 1) (i : Nat) :
    ((i ∈ eqIndices y 0 ∨ i ∈ eqIndices y 1) ↔ i < y.length) ∧
      ¬(i ∈ eqIndices y 0 ∧ i ∈ eqIndices y 1) := by
  constructor
  · constructor
    · rintro (hi | hi) <;> exact (mem_eqIndices.1 hi).1
    · intro hi
      rcases hbin _ (getD_mem_of_lt hi 0) with h0 | h1
      · exact Or.inl (mem_eqIndices.2 ⟨hi, h0⟩)
      · exact Or.inr (mem_eqIndices.2 ⟨hi, h1⟩)
  · rintro ⟨h0, h1⟩
    have e0 := (mem_eqIndices.1 h0).2
    have e1 := (mem_eqIndices.1 h1).2
    rw [e0] at e1
    norm_num at e1

/-- C7: the claim says the oversampling branch succeeds and rebuilds the
store with count0 + floor(count0 / count1) * count1 rows (multiplier 3,
length 6, partitions 3 and 3 at the 3 + 1 store).  In the source
`self.smiles` is the numpy `ids` array, never converted to a torch tensor, so
`torch.cat([smiles_1 for i in range(multiplier)])` at line 73 raises
TypeError whenever the multiplier is at least 1 (and `torch.cat` of an empty
list raises when it is 0, and an empty label-1 partition raises
ZeroDivisionError at line 62): the oversampling branch never completes, for
any store whatsoever — in particular at the claim's own 3 + 1 example, where
the multiplier is 3 and the TypeError is raised. -/
theorem c7_oversample_raises :
    (∀ (ds : DcDataset) (t : Bool) (s : Option Int) (e : Nat),
      ∃ msg, MolDatasetTriplet.init ds t true false s e = .error msg) ∧
    MolDatasetTriplet.init store4 true true false none 0
      = .error "TypeError: expected Tensor as element 0 in argument 0, but got numpy.ndarray" :=
  ⟨init_oversample_error, rfl⟩

/-- C8: whenever the label-1 partition is non-empty, get_pos_weights returns
exactly the pair (1, count of indices_0 / count of indices_1); on the plain
dataset over the 80 + 20 store it returns exactly (1, 4). -/
theorem c8_get_pos_weights_spec :
    (∀ d : MolDatasetTriplet, d.indices_1 ≠ [] →
      MolDatasetTriplet.get_pos_weights d
        = .ok (1, (d.indices_0.length : Rat) / (d.indices_1.length : Rat))) ∧
    (∀ d : MolDatasetTriplet,
      MolDatasetTriplet.init store80 false false false none 0 = .ok d →
      MolDatasetTriplet.get_pos_weights d = .ok (1, 4)) := by
  constructor
  · intro d hd
    unfold MolDatasetTriplet.get_pos_weights
    rw [if_neg (by simpa using hd)]
  · intro d h
    rw [init_plain_eq] at h
    injection h with h
    subst h
    unfold MolDatasetTriplet.get_pos_weights
    dsimp only
    have e0 : (eqIndices store80.y 0).length = 80 := by decide
    have e1 : (eqIndices store80.y 1).length = 20 := by decide
    rw [e0, e1, if_neg (by norm_num)]
    norm_num

/-- Witness for C8 at concrete inputs: both halves of the statement applied to
the plain dataset over the 80 + 20 store. -/
theorem c8_get_pos_weights_spec_witness :
    MolDatasetTriplet.get_pos_weights store80Plain
        = .ok (1, (store80Plain.indices_0.length : Rat)
            / (store80Plain.indices_1.length : Rat))
      ∧ MolDatasetTriplet.get_pos_weights store80Plain = .ok (1, 4) :=
  ⟨c8_get_pos_weights_spec.1 store80Plain (by decide),
    c8_get_pos_weights_spec.2 store80Plain rfl⟩

/-- C9: over a binary-labelled store, every successfully constructed triplet
dataset has partitions that are exclusive and exhaustive on its store: an
index is in indices_0 or indices_1 exactly when it is a position of the
(possibly rebuilt) label array, and never in both; the same holds for the
partitions of the original store. -/
theorem c9_partitions_exclusive_exhaustive (ds : DcDataset) (t o f : Bool)
    (s : Option Int) (e : Nat) (d : MolDatasetTriplet)
    (hbin : ∀ l ∈ ds.y, l = 0 ∨ l = 1)
    (h : MolDatasetTriplet.init ds t o f s e = .ok d) (i : Nat) :
    (((i ∈ d.indices_0 ∨ i ∈ d.indices_1) ↔ i < d.y.length) ∧
      ¬(i ∈ d.indices_0 ∧ i ∈ d.indices_1)) ∧
    (((i ∈ eqIndices ds.y 0 ∨ i ∈ eqIndices ds.y 1) ↔ i < ds.y.length) ∧
      ¬(i ∈ eqIndices ds.y 0 ∧ i ∈ eqIndices ds.y 1)) := by
  have horig := binary_partition hbin i
  cases f with
  | true =>
    cases o with
    | true =>
      rw [init_invalid_eq] at h
      cases h
    | false =>
      obtain ⟨ft, hg, hd⟩ := init_fixed_inv h
      subst hd
      exact ⟨binary_partition hbin i, horig⟩
  | false =>
    cases o with
    | false =>
      rw [init_plain_eq] at h
      injection h with h
      subst h
      exact ⟨binary_partition hbin i, horig⟩
    | true => exact (init_oversample_never h).elim

/-- Witness for C9 at a concrete input: the plain evaluation dataset over
`demoStore`, checked at index 0. -/
theorem c9_partitions_exclusive_exhaustive_witness :
    ((0 ∈ plainDemo.indices_0 ∨ 0 ∈ plainDemo.indices_1) ↔ 0 < plainDemo.y.length)
      ∧ ¬(0 ∈ plainDemo.indices_0 ∧ 0 ∈ plainDemo.indices_1) :=
  (c9_partitions_exclusive_exhaustive demoStore false false false none 0 plainDemo
    (by decide) rfl 0).1

theorem tri_succ (k : Nat) : (k + 2) * (k + 1) / 2 = (k + 1) * k / 2 + (k + 1) := by
  have h2 : (k + 2) * (k + 1) = (k + 1) * k + 2 * (k + 1) := by ring
  rw [h2, Nat.add_mul_div_left _ _ (by norm_num)]

theorem trainDatasetAfterEpochs_spec {d : MolDatasetTriplet} {s0 : Int}
    (h0 : d.indices_0 ≠ []) (h1 : d.indices_1 ≠ []) (hy : d.y ≠ [])
    (hs : d.seed_fixed_triplets = some s0) :
    ∀ n, ∃ dn, trainDatasetAfterEpochs true d n = .ok dn ∧
      dn.X = d.X ∧ dn.y = d.y ∧ dn.indices_0 = d.indices_0 ∧
      dn.indices_1 = d.indices_1 ∧
      dn.seed_fixed_triplets = some (s0 + ((n * (n - 1) / 2 : Nat) : Int)) := by
  intro n
  induction n with
  | zero => exact ⟨d, rfl, rfl, rfl, rfl, rfl, by rw [hs]; norm_num⟩
  | succ n ih =>
    obtain ⟨dn, hdn, hX, hy2, h02, h12, hsn⟩ := ih
    have hstep : trainDatasetAfterEpochs true d (n + 1) = trainEpochRefresh true dn n := by
      unfold trainDatasetAfterEpochs
      rw [hdn]
    rw [hstep]
    cases n with
    | zero =>
      refine ⟨dn, rfl, hX, hy2, h02, h12, ?_⟩
      rw [hsn]
    | succ k =>
      unfold trainEpochRefresh
      rw [if_pos (by simp)]
      simp only [hsn]
      obtain ⟨ft, hr⟩ := refresh_ok (d := dn) (by rw [h02]; exact h0) (by rw [h12]; exact h1)
        (by rw [hy2]; exact hy) (s0 + (((k + 1) * ((k + 1) - 1) / 2 : Nat) : Int) + ((k + 1 : Nat) : Int))
      rw [hr]
      refine ⟨_, rfl, hX, hy2, h02, h12, ?_⟩
      dsimp only
      congr 1
      have ht : (k + 1 + 1) * (k + 1 + 1 - 1) / 2 = (k + 1) * (k + 1 - 1) / 2 + (k + 1) := by
        simp only [Nat.add_sub_cancel]
        exact tri_succ k
      rw [ht]
      push_cast
      ring

/-- C4 counterexample: with construction seed 0 the fixed-mode training
dataset over `demoStore` is constructible, and after the refresh steps of
epochs 0, 1, 2 the stored seed (always equal to the argument of the last
refresh call) is 3, while the claim predicts that the refresh of epoch 2
uses original_seed + 2 = 2, and 3 is not 0 + 2. -/
theorem c4_refresh_seed_counterexample :
    MolDatasetTriplet.init demoStore true false true (some 0) 0 = .ok c4Demo
      ∧ (trainDatasetAfterEpochs true c4Demo 3).map (fun x => x.seed_fixed_triplets)
        = .ok (some 3)
      ∧ (3 : Int) ≠ 0 + 2 := by
  refine ⟨rfl, rfl, by norm_num⟩

/-- C4 (amended): at every epoch e > 0 with fixed training triplets active,
the loop calls refresh_fixed_triplets with the seed currently stored on the
dataset plus e, and refresh stores its argument.  Starting from a fixed-mode
dataset constructed with seed s0, after the refresh steps of epochs
0 .. n-1 the stored seed is s0 + n*(n-1)/2 (the sum 1 + 2 + ... + (n-1)),
i.e. after the refresh of epoch e it is s0 + e*(e+1)/2, not s0 + e. -/
theorem c4_refresh_seed_accumulates (ds : DcDataset) (t : Bool) (s0 : Int) (e : Nat)
    (d : MolDatasetTriplet)
    (h : MolDatasetTriplet.init ds t false true (some s0) e = .ok d) (n : Nat) :
    (trainDatasetAfterEpochs true d n).map (fun x => x.seed_fixed_triplets)
      = .ok (some (s0 + ((n * (n - 1) / 2 : Nat) : Int))) := by
  obtain ⟨ft, hg, hd⟩ := init_fixed_inv h
  obtain ⟨_, _, _, hy, hi0, hi1⟩ := get_fixed_dataset_inv hg
  have hd0 : d.indices_0 ≠ [] := by rw [hd]; exact hi0
  have hd1 : d.indices_1 ≠ [] := by rw [hd]; exact hi1
  have hdy : d.y ≠ [] := by rw [hd]; exact hy
  have hds : d.seed_fixed_triplets = some s0 := by rw [hd]
  obtain ⟨dn, hdn, hX, hy2, h02, h12, hsn⟩ :=
    trainDatasetAfterEpochs_spec hd0 hd1 hdy hds n
  rw [hdn]
  simp [Except.map, hsn]

/-- Witness for C4 (amended) at a concrete input: seed 0, three epochs, final
stored seed 0 + 3*2/2 = 3. -/
theorem c4_refresh_seed_accumulates_witness :
    (trainDatasetAfterEpochs true c4Demo 3).map (fun x => x.seed_fixed_triplets)
      = .ok (some (0 + ((3 * (3 - 1) / 2 : Nat) : Int))) :=
  c4_refresh_seed_accumulates demoStore true 0 0 c4Demo rfl 3

/-- C10 counterexample: the plain evaluation dataset over a store whose
records are all label 1 is constructible, its label-0 partition is empty,
and refresh_fixed_triplets on it raises instead of succeeding. -/
theorem c10_refresh_counterexample :
    MolDatasetTriplet.init allOnesStore false false false none 0 = .ok allOnesPlain
      ∧ MolDatasetTriplet.refresh_fixed_triplets allOnesPlain 5
        = .error "choice from an empty sequence" :=
  ⟨rfl, rfl⟩

/-- C10 (amended): on every dataset whose two partitions and store are
non-empty, refresh_fixed_triplets succeeds and mutates only the stored seed
and the cache: the store (X, y, smiles), n_molecules, both partitions and the
train / oversample / use_fixed_triplets flags are unchanged, and on a
non-fixed evaluation dataset (train = false, use_fixed_triplets = false) the
sampling behaviour of getitem is unchanged by the call. -/
theorem c10_refresh_frame (d : MolDatasetTriplet) (s : Int)
    (h0 : d.indices_0 ≠ []) (h1 : d.indices_1 ≠ []) (hy : d.y ≠ []) :
    ∃ d2, MolDatasetTriplet.refresh_fixed_triplets d s = .ok d2 ∧
      d2.X = d.X ∧ d2.y = d.y ∧ d2.smiles = d.smiles ∧
      d2.n_molecules = d.n_molecules ∧ d2.train = d.train ∧
      d2.oversample = d.oversample ∧ d2.use_fixed_triplets = d.use_fixed_triplets ∧
      d2.indices_0 = d.indices_0 ∧ d2.indices_1 = d.indices_1 ∧
      d2.seed_fixed_triplets = some s ∧
      (d.train = false → d.use_fixed_triplets = false →
        ∀ (i : Nat) (g : RandState),
          MolDatasetTriplet.getitem d2 i g = MolDatasetTriplet.getitem d i g) := by
  obtain ⟨ft, hr⟩ := refresh_ok h0 h1 hy s
  refine ⟨_, hr, rfl, rfl, rfl, rfl, rfl, rfl, rfl, rfl, rfl, rfl, ?_⟩
  intro htr hfx i g
  unfold MolDatasetTriplet.getitem
  dsimp only
  rw [htr, hfx]
  rfl

/-- Witness for C10 (amended) at a concrete input: refreshing the plain
evaluation dataset over `demoStore` with seed 5 succeeds and leaves the
store, the partitions and the flags unchanged. -/
theorem c10_refresh_frame_witness :
    (MolDatasetTriplet.refresh_fixed_triplets plainDemo 5).map
        (fun d2 => (d2.y, d2.indices_0, d2.indices_1, d2.train, d2.use_fixed_triplets,
          d2.seed_fixed_triplets))
      = .ok (plainDemo.y, plainDemo.indices_0, plainDemo.indices_1, false, false, some 5) := by
  obtain ⟨d2, hr, hX, hy, hsm, hnm, htr, hov, hfx, hp0, hp1, hseed, hget⟩ :=
    c10_refresh_frame plainDemo 5 (by decide) (by decide) (by decide)
  rw [hr]
  simp [Except.map, hy, hp0, hp1, htr, hfx, hseed, plainDemo]
